import Mathlib

/-!
Shallow embedding of the field-extraction engine of `sebastiangraz/generic-scraper`
(`src/scraper.py`, function `scrape_generic`) and of the batch loop of
`src/app.py` (`main`, the per-URL loop around `scrape_generic`).

Python dictionaries are modelled as insertion-ordered association lists
(`List (String × _)`) with `setKey` (insert-or-overwrite-in-place) and
`getKey?` (first-match lookup).  XPath node references are modelled by
`Node`: either a structured element (with optional `text` and an attribute
mapping — we model the merged `attrib`/`attrs` dictionary the code builds at
lines 112–116 as one association list) or a raw string result, matching the
Python code's `hasattr(elem, "text")` / `hasattr(elem, "attrib")` duck typing.
The page-fetching backend is an opaque parameter: `fetch` returns either an
exception message or a `FetchResult` whose `xpath` member models
`root.xpath` (which may itself raise, modelled with `Except`).
Python exceptions are modelled as `Except String`; the code's
`try`/`except` around the whole body is modelled by threading the partial
mutable state (`data`, `field_debug`) out of `runFields` together with an
optional error.
-/

set_option linter.unusedVariables false

namespace Scraper

/-- An XPath match result: a structured element node (with text content and
attributes) or a plain string (as returned when the query selects an
attribute or text node directly). -/
inductive Node where
  | element (text : Option String) (attrib : List (String × String))
  | str (s : String)
deriving DecidableEq, Repr

/-- One per-field debug record, as built at `scraper.py` lines 92–97,
132–137 and 153–159. -/
structure FieldDebug where
  type : String
  xpath : String
  match_count : Nat
  sample : Option String
deriving DecidableEq, Repr

/-- The page-level `debug_info` dictionary (`scraper.py` lines 36, 44–47,
162–169).  Outer `Option` on the first three members records whether the
dictionary key was ever assigned. -/
structure DebugInfo where
  status_code : Option (Option Int)
  ok : Option (Option Bool)
  final_url : Option String
  error : Option String
  fields : List (String × FieldDebug)
deriving DecidableEq, Repr

/-- A value stored in the result dictionary `data`: Python `None`, a string,
a list of strings, or (under the key `"_debug"`) the debug dictionary. -/
inductive Value where
  | null
  | str (s : String)
  | list (items : List String)
  | dbg (d : DebugInfo)
deriving DecidableEq, Repr

/-- One field definition as consumed by `scrape_generic`: a mapping read
defensively with `.get`, so every key may be missing. -/
structure FieldSpec where
  name : Option String
  type : Option String
  selector : Option String
deriving DecidableEq, Repr

/-- The response object produced by a successful `session.get(url)` (plus
the parts of it the code touches): HTTP metadata, the JS renderer (which may
raise), and the lxml root's `xpath` method (which may raise). -/
structure FetchResult where
  status_code : Option Int
  ok : Option Bool
  final_url : String
  render : Except String Unit
  xpath : String → Except String (List Node)

/-- Python `str.strip()`: drop leading and trailing whitespace.  (Defined on
the character list so that it evaluates inside the kernel.) -/
def pyStrip (s : String) : String :=
  String.mk (((s.data.dropWhile fun c => c.isWhitespace).reverse.dropWhile
    fun c => c.isWhitespace).reverse)

/-- Python `str.lower()`. -/
def pyLower (s : String) : String :=
  String.mk (s.data.map Char.toLower)

/-- Python dict assignment `m[k] = v`: overwrite in place if the key is
present, else append. -/
def setKey {α : Type} : List (String × α) → String → α → List (String × α)
  | [], k, v => [(k, v)]
  | p :: rest, k, v => if p.1 = k then (k, v) :: rest else p :: setKey rest k v

/-- Python dict lookup `m.get(k)`. -/
def getKey? {α : Type} : List (String × α) → String → Option α
  | [], _ => none
  | p :: rest, k => if p.1 = k then some p.2 else getKey? rest k

/-- `name = str(field.get("name") or "").strip() or "field"` (line 62). -/
def resolvedName (f : FieldSpec) : String :=
  let n := pyStrip (f.name.getD "")
  if n = "" then "field" else n

/-- `field_type = str(field.get("type") or "single").lower()` (line 63). -/
def resolvedType (f : FieldSpec) : String :=
  pyLower (if f.type.getD "" = "" then "single" else f.type.getD "")

/-- `xpath = str(field.get("selector") or "").strip()` (line 64). -/
def resolvedSelector (f : FieldSpec) : String :=
  pyStrip (f.selector.getD "")

/-- `elem.text` / `str(elem)`, trimmed, with `None` text coerced to `""`
(lines 76–79, 144–147). -/
def nodeText : Node → String
  | .element t _ => pyStrip (t.getD "")
  | .str s => pyStrip s

/-- Attribute lookup on the merged attribute dictionary (`attrs.get(k)`). -/
def attrGet (attrib : List (String × String)) (k : String) : Option String :=
  (attrib.find? (fun p => p.1 = k)).map (fun p => p.2)

/-- Python `a or b` on optional strings: `a` when it is a non-empty string,
otherwise `b`. -/
def pyOr (a b : Option String) : Option String :=
  match a with
  | some s => if s = "" then b else some s
  | none => b

/-- `Value` for the `value or None` idiom: `none ↦ null`, `some s ↦ str s`. -/
def valueOfOpt : Option String → Value
  | none => Value.null
  | some s => Value.str s

/-- The image-value resolution for the first matched node
(`scraper.py` lines 105–127): a plain string result is trimmed (`None` if
empty); an element probes `src or data-src or data-image or href` with
Python `or` semantics and falls back to the trimmed element text only when
that chain yields `None`. -/
def imageValue : Node → Option String
  | .str s => if pyStrip s = "" then none else some (pyStrip s)
  | .element text attrib =>
    let v := pyOr (pyOr (pyOr (attrGet attrib "src") (attrGet attrib "data-src"))
        (attrGet attrib "data-image")) (attrGet attrib "href")
    match v with
    | some s => some s
    | none => if pyStrip (text.getD "") = "" then none else some (pyStrip (text.getD ""))

/-- One iteration of the `for field in fields` loop (`scraper.py` lines
60–159), acting on the mutable dictionaries `data` and `field_debug`.
Returns the updated dictionaries and, when the XPath evaluation raised, the
exception message (which aborts the loop in `runFields`). -/
def processField (xpathF : String → Except String (List Node)) (debug : Bool)
    (data : List (String × Value)) (fdbg : List (String × FieldDebug))
    (field : FieldSpec) :
    List (String × Value) × List (String × FieldDebug) × Option String :=
  let name := resolvedName field
  let field_type := resolvedType field
  let xpath := resolvedSelector field
  if xpath = "" then
    (setKey data name Value.null, fdbg, none)
  else if field_type = "multiple" then
    match xpathF xpath with
    | .error e => (data, fdbg, some e)
    | .ok elems =>
      let items := (elems.map nodeText).filter (fun s => s ≠ "")
      let data := setKey data name (Value.list items)
      let fdbg :=
        if debug then
          let sample : Option String :=
            match elems with
            | [] => none
            | first :: _ => some (nodeText first)
          setKey fdbg name ⟨field_type, xpath, elems.length, sample⟩
        else fdbg
      (data, fdbg, none)
  else if field_type = "image" then
    match xpathF xpath with
    | .error e => (data, fdbg, some e)
    | .ok nodes =>
      let value : Option String :=
        match nodes with
        | [] => none
        | elem :: _ => imageValue elem
      let data := setKey data name (valueOfOpt value)
      let fdbg :=
        if debug then setKey fdbg name ⟨field_type, xpath, nodes.length, value⟩
        else fdbg
      (data, fdbg, none)
  else
    match xpathF xpath with
    | .error e => (data, fdbg, some e)
    | .ok nodes =>
      match nodes with
      | elem :: _ =>
        let text := nodeText elem
        let value : Option String := if text = "" then none else some text
        let data := setKey data name (valueOfOpt value)
        let fdbg :=
          if debug then setKey fdbg name ⟨field_type, xpath, nodes.length, value⟩
          else fdbg
        (data, fdbg, none)
      | [] =>
        let value : Option String := none
        let fdbg :=
          if debug then setKey fdbg name ⟨field_type, xpath, 0, value⟩
          else fdbg
        (data, fdbg, none)

/-- The whole `for field in fields` loop.  An exception raised while
processing one field escapes the loop (it is caught only at the page level),
leaving the partial `data` and `field_debug` mutations in place. -/
def runFields (xpathF : String → Except String (List Node)) (debug : Bool)
    (fields : List FieldSpec)
    (data : List (String × Value)) (fdbg : List (String × FieldDebug)) :
    List (String × Value) × List (String × FieldDebug) × Option String :=
  match fields with
  | [] => (data, fdbg, none)
  | f :: rest =>
    let r := processField xpathF debug data fdbg f
    match r.2.2 with
    | some e => (r.1, r.2.1, some e)
    | none => runFields xpathF debug rest r.1 r.2.1

/-- `scrape_generic(url, fields, render_js, debug)` (`scraper.py` lines
9–171).  The fetch backend is passed as a parameter; any exception from
fetching, rendering or XPath evaluation is caught at the page level and,
when `debug` is on, recorded under `_debug.error`. -/
def scrape_generic (fetch : String → Except String FetchResult) (url : String)
    (fields : List FieldSpec) (render_js : Bool) (debug : Bool) :
    List (String × Value) :=
  let data0 : List (String × Value) := [("url", Value.str url)]
  let tryResult :
      List (String × Value) × DebugInfo × List (String × FieldDebug) × Option String :=
    match fetch url with
    | .error e => (data0, ⟨none, none, none, none, []⟩, [], some e)
    | .ok response =>
      let dinfo : DebugInfo :=
        if debug then
          ⟨some response.status_code, some response.ok, some response.final_url, none, []⟩
        else ⟨none, none, none, none, []⟩
      match (if render_js then response.render else Except.ok ()) with
      | .error e => (data0, dinfo, [], some e)
      | .ok _ =>
        let r := runFields response.xpath debug fields data0 []
        (r.1, dinfo, r.2.1, r.2.2)
  match tryResult with
  | (data, dinfo, field_debug, err) =>
    if debug then
      let dinfo := { dinfo with error := err, fields := field_debug }
      setKey data "_debug" (Value.dbg dinfo)
    else data

/-- The per-URL batch loop of `app.py` `main` (lines 144–148): one
`scrape_generic` call per URL, results appended in order. -/
def runBatch (fetch : String → Except String FetchResult) (urls : List String)
    (fields : List FieldSpec) (render_js : Bool) (debug : Bool) :
    List (List (String × Value)) :=
  urls.map (fun url => scrape_generic fetch url fields render_js debug)

/-- The `fields` sub-dictionary of a result's `_debug` entry, if present. -/
def debugFieldsOf (m : List (String × Value)) : List (String × FieldDebug) :=
  match getKey? m "_debug" with
  | some (Value.dbg di) => di.fields
  | _ => []

/-- The `error` entry of a result's `_debug` dictionary, if present. -/
def debugErrorOf (m : List (String × Value)) : Option String :=
  match getKey? m "_debug" with
  | some (Value.dbg di) => di.error
  | _ => none

/-- The image-value rule exactly as the spec sentence behind claim C3 words
it: "take the first present non-absent value" among `src`, `data-src`,
`data-image`, `href` in that order (present means the attribute exists, even
with an empty-string value); only if none is present fall back to the
trimmed text; absent if still empty.  Declared for comparison with
`imageValue`, which is translated from the code. -/
def specImageValue : Node → Option String
  | .str s => if pyStrip s = "" then none else some (pyStrip s)
  | .element text attrib =>
    match attrGet attrib "src" with
    | some v => some v
    | none =>
      match attrGet attrib "data-src" with
      | some v => some v
      | none =>
        match attrGet attrib "data-image" with
        | some v => some v
        | none =>
          match attrGet attrib "href" with
          | some v => some v
          | none =>
            if pyStrip (text.getD "") = "" then none
            else some (pyStrip (text.getD ""))

/-- The amended image-value rule: the first present **non-empty** attribute
among `src`, `data-src`, `data-image`, `href` in that order; when all four
are absent or empty, the `href` value if present (the empty string), else
the trimmed text, absent if that is empty. -/
def amendedImageValue : Node → Option String
  | .str s => if pyStrip s = "" then none else some (pyStrip s)
  | .element text attrib =>
    match ([attrGet attrib "src", attrGet attrib "data-src", attrGet attrib "data-image",
        attrGet attrib "href"].filterMap id).find? (fun v => v ≠ "") with
    | some v => some v
    | none =>
      match attrGet attrib "href" with
      | some v => some v
      | none =>
        if pyStrip (text.getD "") = "" then none
        else some (pyStrip (text.getD ""))

/-- Summary of the single dictionary write (if any) a field performs when
its XPath evaluation succeeds and returns `xq selector`: the written key and
value, or `none` when the field writes nothing (a Single-dispatch field with
zero matches). -/
def fieldWrite (xq : String → List Node) (field : FieldSpec) : Option (String × Value) :=
  let name := resolvedName field
  let t := resolvedType field
  let sel := resolvedSelector field
  if sel = "" then some (name, Value.null)
  else if t = "multiple" then
    some (name, Value.list (((xq sel).map nodeText).filter (fun s => s ≠ "")))
  else if t = "image" then
    some (name,
      match xq sel with
      | [] => Value.null
      | elem :: _ => valueOfOpt (imageValue elem))
  else
    match xq sel with
    | [] => none
    | elem :: _ =>
      some (name, if nodeText elem = "" then Value.null else Value.str (nodeText elem))

/-- The last value written for key `n` by a forward scan over a sequence of
writes — the "last write wins" rule in the spec's own words. -/
def lastWriteOf (ws : List (String × Value)) (n : String) : Option Value :=
  ws.foldl (fun acc p => if p.1 = n then some p.2 else acc) none

/-- A successful response whose document tree answers every XPath query with
the given evaluator.  Used to build concrete test pages. -/
def pageWith (x : String → Except String (List Node)) : FetchResult :=
  ⟨some 200, some true, "final", Except.ok (), x⟩

/-- A fetch backend that succeeds on every URL with `pageWith x`. -/
def fetchWith (x : String → Except String (List Node)) :
    String → Except String FetchResult :=
  fun _ => Except.ok (pageWith x)

/-- An XPath evaluator returning the same node list for every query. -/
def xpathConst (ns : List Node) : String → Except String (List Node) :=
  fun _ => Except.ok ns

/-- A fetch backend for the batch-loop witness: URL `"U2"` fails with a
network error, `"U3"` yields a page whose JS rendering raises, `"U4"` yields
a page whose XPath evaluation raises, and any other URL succeeds with no
matches. -/
def mixedFetch : String → Except String FetchResult :=
  fun u =>
    if u = "U2" then Except.error "ConnectionError"
    else if u = "U3" then
      Except.ok ⟨some 200, some true, "U3", Except.error "RenderTimeout", fun _ => Except.ok []⟩
    else if u = "U4" then
      Except.ok ⟨some 200, some true, "U4", Except.ok (), fun _ => Except.error "XPathEvalError"⟩
    else Except.ok (pageWith (xpathConst []))

/-- The data dictionary produced by the protected region of
`scrape_generic` (before the `_debug` key is attached): the initial
`{"url": url}` when fetching or rendering raised, otherwise the dictionary
after the field loop (which itself may have stopped early on a query
error). -/
def scrapeData (fetch : String → Except String FetchResult) (url : String)
    (fields : List FieldSpec) (render_js : Bool) (debug : Bool) :
    List (String × Value) :=
  match fetch url with
  | .error _ => [("url", Value.str url)]
  | .ok response =>
    match (if render_js then response.render else Except.ok ()) with
    | .error _ => [("url", Value.str url)]
    | .ok _ => (runFields response.xpath debug fields [("url", Value.str url)] []).1

/-! ### Association-list (Python dict) lemmas -/

theorem getKey?_setKey_self {α : Type} (m : List (String × α)) (k : String) (v : α) :
    getKey? (setKey m k v) k = some v := by
  induction m with
  | nil => simp [setKey, getKey?]
  | cons p rest ih =>
    by_cases h : p.1 = k <;> simp [setKey, getKey?, h, ih]

theorem getKey?_setKey_ne {α : Type} (m : List (String × α)) (k k' : String) (v : α)
    (h : k ≠ k') : getKey? (setKey m k v) k' = getKey? m k' := by
  induction m with
  | nil => simp [setKey, getKey?, h]
  | cons p rest ih =>
    by_cases hp : p.1 = k
    · subst hp
      simp [setKey, getKey?, h]
    · simp [setKey, getKey?, hp, ih]

theorem isSome_getKey?_setKey {α : Type} (m : List (String × α)) (k k' : String) (v : α)
    (h : (getKey? m k').isSome) : (getKey? (setKey m k v) k').isSome := by
  by_cases hk : k = k'
  · subst hk
    simp [getKey?_setKey_self]
  · rw [getKey?_setKey_ne m k k' v hk]
    exact h

/-- Behavior of the default (Single) dispatch branch, entered whenever the
resolved type is neither `"multiple"` nor `"image"`: the stored value is the
trimmed text of the first matched node (`null` if it trims to empty), zero
matches leave `data` untouched, and no error is raised. -/
theorem single_branch_behavior
    (xpathF : String → Except String (List Node)) (debug : Bool)
    (data : List (String × Value)) (fdbg : List (String × FieldDebug))
    (field : FieldSpec) (elems : List Node)
    (hm : resolvedType field ≠ "multiple") (hi : resolvedType field ≠ "image")
    (hs : resolvedSelector field ≠ "")
    (hx : xpathF (resolvedSelector field) = Except.ok elems) :
    (∀ elem rest, elems = elem :: rest →
      getKey? (processField xpathF debug data fdbg field).1 (resolvedName field)
        = some (if nodeText elem = "" then Value.null else Value.str (nodeText elem))) ∧
    (elems = [] → (processField xpathF debug data fdbg field).1 = data) ∧
    (processField xpathF debug data fdbg field).2.2 = none := by
  refine ⟨?_, ?_, ?_⟩
  · intro elem rest he
    subst he
    by_cases hte : nodeText elem = "" <;>
      simp [processField, hs, hm, hi, hx, hte, valueOfOpt, getKey?_setKey_self]
  · intro he
    subst he
    simp [processField, hs, hm, hi, hx]
  · rcases elems with _ | ⟨elem, rest⟩ <;>
      simp [processField, hs, hm, hi, hx]

/-! ### Claim C1 -/

/-- C1 counterexample: with debug on, a Multiple-type field whose selector
trims to empty gets the value `null` (not the empty collection) in the
result of `scrape_generic`, and no FieldDebug entry is recorded for it at
all (the claim demands an entry with `match_count = 0`). -/
theorem C1_counterexample :
    getKey? (scrape_generic (fetchWith (xpathConst [])) "u"
        [⟨some "f", some "multiple", some " "⟩] false true) "f" = some Value.null ∧
    Value.null ≠ Value.list [] ∧
    getKey? (debugFieldsOf (scrape_generic (fetchWith (xpathConst [])) "u"
        [⟨some "f", some "multiple", some " "⟩] false true)) "f" = none := by
  decide

/-- C1 (amended): for every FieldSpec whose selector strips to the empty
string, the engine stores `null` under the resolved field name regardless of
the field's type, leaves the per-field debug map untouched (no FieldDebug
entry, even with debug on), and raises no error. -/
theorem C1_blank_selector :
    ∀ (xpathF : String → Except String (List Node)) (debug : Bool)
      (data : List (String × Value)) (fdbg : List (String × FieldDebug)) (field : FieldSpec),
      resolvedSelector field = "" →
      processField xpathF debug data fdbg field
        = (setKey data (resolvedName field) Value.null, fdbg, none) := by
  intro xpathF debug data fdbg field h
  simp [processField, h]

/-- C1 witness: the amended statement applied to a concrete blank-selector
Multiple-type field with debug on. -/
theorem C1_witness :
    resolvedSelector ⟨some "f", some "multiple", some "  "⟩ = "" ∧
    processField (xpathConst []) true [] [] ⟨some "f", some "multiple", some "  "⟩
      = (setKey [] (resolvedName ⟨some "f", some "multiple", some "  "⟩) Value.null, [], none) :=
  ⟨by decide,
    C1_blank_selector (xpathConst []) true [] [] ⟨some "f", some "multiple", some "  "⟩
      (by decide)⟩

/-! ### Claim C4 -/

/-- C4: for every Multiple-type FieldSpec with a non-blank selector whose
query evaluation succeeds, the stored value is the list of trimmed node
texts with empty entries removed; that list is a subsequence of the full
in-order text list (match order preserved), contains no empty strings, and
zero matches produce the empty list rather than an error. -/
theorem C4_multiple_order_filter :
    ∀ (xpathF : String → Except String (List Node)) (debug : Bool)
      (data : List (String × Value)) (fdbg : List (String × FieldDebug))
      (field : FieldSpec) (elems : List Node),
      resolvedType field = "multiple" → resolvedSelector field ≠ "" →
      xpathF (resolvedSelector field) = Except.ok elems →
      getKey? (processField xpathF debug data fdbg field).1 (resolvedName field)
          = some (Value.list ((elems.map nodeText).filter (fun s => s ≠ ""))) ∧
      ((elems.map nodeText).filter (fun s => s ≠ "")).Sublist (elems.map nodeText) ∧
      (∀ s ∈ (elems.map nodeText).filter (fun s => s ≠ ""), s ≠ "") ∧
      (processField xpathF debug data fdbg field).2.2 = none := by
  intro xpathF debug data fdbg field elems ht hs hx
  refine ⟨?_, List.filter_sublist _, ?_, ?_⟩
  · simp [processField, hs, ht, hx, getKey?_setKey_self]
  · intro s hmem
    have := (List.mem_filter.mp hmem).2
    simpa using this
  · simp [processField, hs, ht, hx]

/-- C4 witness: a concrete Multiple-type field over three matched nodes, one
of which has only whitespace text; the stored list keeps the two non-empty
trimmed texts in order. -/
theorem C4_witness :
    getKey? (processField (xpathConst [Node.element (some " a ") [], Node.str "  ",
        Node.str " b "]) true [] [] ⟨some "items", some "multiple", some "//li"⟩).1 "items"
      = some (Value.list ["a", "b"]) :=
  by
    have h := C4_multiple_order_filter
      (xpathConst [Node.element (some " a ") [], Node.str "  ", Node.str " b "]) true [] []
      ⟨some "items", some "multiple", some "//li"⟩
      [Node.element (some " a ") [], Node.str "  ", Node.str " b "]
      (by decide) (by decide) rfl
    have h1 := h.1
    simpa using h1

/-! ### Claim C5 -/

/-- C5: for every Single-type FieldSpec with a non-blank selector whose
query evaluation succeeds, the stored value is the trimmed text of the first
matched node only (`null` when that text trims to empty); with zero matches
the data dictionary is left unchanged (the value is absent); zero matches
raise no error. -/
theorem C5_single_first_text :
    ∀ (xpathF : String → Except String (List Node)) (debug : Bool)
      (data : List (String × Value)) (fdbg : List (String × FieldDebug))
      (field : FieldSpec) (elems : List Node),
      resolvedType field = "single" → resolvedSelector field ≠ "" →
      xpathF (resolvedSelector field) = Except.ok elems →
      (∀ elem rest, elems = elem :: rest →
        getKey? (processField xpathF debug data fdbg field).1 (resolvedName field)
          = some (if nodeText elem = "" then Value.null else Value.str (nodeText elem))) ∧
      (elems = [] → (processField xpathF debug data fdbg field).1 = data) ∧
      (processField xpathF debug data fdbg field).2.2 = none := by
  intro xpathF debug data fdbg field elems ht hs hx
  exact single_branch_behavior xpathF debug data fdbg field elems
    (by rw [ht]; decide) (by rw [ht]; decide) hs hx

/-- C5 witness: the spec's own example, one match with text `"  Hello  "`
stores `"Hello"`; and a zero-match evaluation leaves the dictionary
unchanged. -/
theorem C5_witness :
    getKey? (processField (xpathConst [Node.element (some "  Hello  ") []]) false [] []
        ⟨some "t", some "single", some "//h1"⟩).1 "t" = some (Value.str "Hello") ∧
    (processField (xpathConst []) false [] [] ⟨some "t", some "single", some "//h1"⟩).1 = [] :=
  by
    have h1 := C5_single_first_text (xpathConst [Node.element (some "  Hello  ") []]) false [] []
      ⟨some "t", some "single", some "//h1"⟩ [Node.element (some "  Hello  ") []]
      (by decide) (by decide) rfl
    have h2 := C5_single_first_text (xpathConst []) false [] []
      ⟨some "t", some "single", some "//h1"⟩ []
      (by decide) (by decide) rfl
    refine ⟨?_, h2.2.1 rfl⟩
    have := h1.1 (Node.element (some "  Hello  ") []) [] rfl
    simpa using this

/-! ### Claim C10 -/

/-- C10: for a Single-dispatch FieldSpec (resolved type neither `"multiple"`
nor `"image"`) with a non-blank selector and zero matches, the data
dictionary is left unchanged (so the key is written nowhere), yet with debug
on the field still gets a FieldDebug entry with `match_count = 0` and
`sample = none`; a blank selector instead stores an explicit `null` under
the resolved name. -/
theorem C10_zero_match_absent_key :
    ∀ (xpathF : String → Except String (List Node)) (debug : Bool)
      (data : List (String × Value)) (fdbg : List (String × FieldDebug))
      (field : FieldSpec),
      resolvedType field ≠ "multiple" → resolvedType field ≠ "image" →
      ((resolvedSelector field ≠ "" → xpathF (resolvedSelector field) = Except.ok [] →
        (processField xpathF debug data fdbg field).1 = data ∧
        (debug = true →
          getKey? (processField xpathF debug data fdbg field).2.1 (resolvedName field)
            = some ⟨resolvedType field, resolvedSelector field, 0, none⟩)) ∧
      (resolvedSelector field = "" →
        getKey? (processField xpathF debug data fdbg field).1 (resolvedName field)
          = some Value.null)) := by
  intro xpathF debug data fdbg field hm hi
  constructor
  · intro hs hx
    constructor
    · simp [processField, hs, hm, hi, hx]
    · intro hd
      subst hd
      simp [processField, hs, hm, hi, hx, getKey?_setKey_self]
  · intro hs
    simp [processField, hs, getKey?_setKey_self]

/-- C10 witness: a concrete unknown-typed zero-match field (debug on) leaves
the data dictionary unchanged while recording a zero-count debug entry, and
a blank-selector variant stores `null`. -/
theorem C10_witness :
    (processField (xpathConst []) true [("url", Value.str "u")] []
        ⟨some "t", none, some "//p"⟩).1 = [("url", Value.str "u")] ∧
    getKey? (processField (xpathConst []) true [("url", Value.str "u")] []
        ⟨some "t", none, some "//p"⟩).2.1 "t" = some ⟨"single", "//p", 0, none⟩ ∧
    getKey? (processField (xpathConst []) true [] [] ⟨some "t", none, some " "⟩).1 "t"
      = some Value.null :=
  by
    have h := C10_zero_match_absent_key (xpathConst []) true [("url", Value.str "u")] []
      ⟨some "t", none, some "//p"⟩ (by decide) (by decide)
    have h2 := C10_zero_match_absent_key (xpathConst []) true [] []
      ⟨some "t", none, some " "⟩ (by decide) (by decide)
    have ha := h.1 (by decide) rfl
    refine ⟨ha.1, ?_, h2.2 (by decide)⟩
    have hb := ha.2 rfl
    simpa using hb

/-! ### Claim C6 -/

/-- C6: malformed FieldSpecs are resolved via defaults and never raise: a
name that strips to empty resolves to `"field"`; a missing or empty type
resolves to `"single"`; any type not recognized as `"multiple"` or
`"image"` is processed by the Single rule; and whenever the selector is
blank or the query evaluation succeeds, the field contributes no error. -/
theorem C6_config_tolerance :
    (∀ f : FieldSpec, pyStrip (f.name.getD "") = "" → resolvedName f = "field") ∧
    (∀ f : FieldSpec, (f.type = none ∨ f.type = some "") → resolvedType f = "single") ∧
    (∀ (xpathF : String → Except String (List Node)) (debug : Bool)
      (data : List (String × Value)) (fdbg : List (String × FieldDebug))
      (f : FieldSpec) (elems : List Node),
      resolvedType f ≠ "multiple" → resolvedType f ≠ "image" →
      resolvedSelector f ≠ "" → xpathF (resolvedSelector f) = Except.ok elems →
      (∀ elem rest, elems = elem :: rest →
        getKey? (processField xpathF debug data fdbg f).1 (resolvedName f)
          = some (if nodeText elem = "" then Value.null else Value.str (nodeText elem))) ∧
      (elems = [] → (processField xpathF debug data fdbg f).1 = data)) ∧
    (∀ (xpathF : String → Except String (List Node)) (debug : Bool)
      (data : List (String × Value)) (fdbg : List (String × FieldDebug))
      (f : FieldSpec) (res : List Node),
      xpathF (resolvedSelector f) = Except.ok res →
      (processField xpathF debug data fdbg f).2.2 = none) := by
  refine ⟨?_, ?_, ?_, ?_⟩
  · intro f h
    simp [resolvedName, h]
  · intro f h
    rcases h with h | h <;> simp [resolvedType, h] <;> decide
  · intro xpathF debug data fdbg f elems hm hi hs hx
    have h := single_branch_behavior xpathF debug data fdbg f elems hm hi hs hx
    exact ⟨h.1, h.2.1⟩
  · intro xpathF debug data fdbg f res hx
    by_cases hsel : resolvedSelector f = ""
    · simp [processField, hsel]
    · by_cases hm : resolvedType f = "multiple"
      · simp [processField, hsel, hm, hx]
      · by_cases hi : resolvedType f = "image"
        · simp [processField, hsel, hm, hi, hx]
        · rcases res with _ | ⟨e, r⟩ <;> simp [processField, hsel, hm, hi, hx]

/-- C6 witness: a FieldSpec with whitespace name, unrecognized type and one
matched node is treated exactly like a Single field named `"field"`, with no
error. -/
theorem C6_witness :
    resolvedName ⟨some "  ", some "WeIrD", some "//h1"⟩ = "field" ∧
    resolvedType ⟨some "x", none, some "//h1"⟩ = "single" ∧
    getKey? (processField (xpathConst [Node.str " v "]) false [] []
        ⟨some "  ", some "WeIrD", some "//h1"⟩).1 "field" = some (Value.str "v") ∧
    (processField (xpathConst [Node.str " v "]) false [] []
        ⟨some "  ", some "WeIrD", some "//h1"⟩).2.2 = none :=
  by
    have h := C6_config_tolerance
    have h1 := h.1 ⟨some "  ", some "WeIrD", some "//h1"⟩ (by decide)
    have h2 := h.2.1 ⟨some "x", none, some "//h1"⟩ (Or.inl rfl)
    have h3 := (h.2.2.1 (xpathConst [Node.str " v "]) false [] []
      ⟨some "  ", some "WeIrD", some "//h1"⟩ [Node.str " v "]
      (by decide) (by decide) (by decide) rfl).1 (Node.str " v ") [] rfl
    have h4 := h.2.2.2 (xpathConst [Node.str " v "]) false [] []
      ⟨some "  ", some "WeIrD", some "//h1"⟩ [Node.str " v "] rfl
    refine ⟨h1, h2, ?_, h4⟩
    rw [show resolvedName ⟨some "  ", some "WeIrD", some "//h1"⟩ = "field" from h1] at h3
    simpa using h3

/-! ### Claim C3 -/

theorem pyOr_self (d : Option String) : pyOr d d = d := by
  rcases d with _ | v
  · rfl
  · by_cases hv : v = "" <;> simp [pyOr, hv]

theorem pyOr_assoc (a b c : Option String) :
    pyOr (pyOr a b) c = pyOr a (pyOr b c) := by
  rcases a with _ | a
  · rfl
  · by_cases ha : a = "" <;> simp [pyOr, ha]

/-- A right-nested Python `or` chain equals: first non-empty value among the
present operands, else the default. -/
theorem pyOr_foldr (l : List (Option String)) (d : Option String) :
    l.foldr pyOr d
      = match (l.filterMap id).find? (fun v => v ≠ "") with
        | some v => some v
        | none => d := by
  induction l with
  | nil => simp [List.find?]
  | cons x xs ih =>
    rcases x with _ | v
    · simpa [pyOr] using ih
    · by_cases hv : v = ""
      · subst hv
        simpa [pyOr, List.filterMap_cons, List.find?] using ih
      · simp [pyOr, hv, List.filterMap_cons, List.find?]

/-- Python's four-way `or` chain equals: first non-empty value among the
present attributes, else the last operand (which is `none` when absent and
may be `some ""`). -/
theorem pyOr_chain (a b c d : Option String) :
    pyOr (pyOr (pyOr a b) c) d
      = match ([a, b, c, d].filterMap id).find? (fun v => v ≠ "") with
        | some v => some v
        | none => d := by
  have h := pyOr_foldr [a, b, c, d] d
  simp only [List.foldr] at h
  rw [pyOr_self] at h
  rw [pyOr_assoc, pyOr_assoc]
  exact h

/-- The code's image-value resolution agrees with the amended description
everywhere. -/
theorem imageValue_eq_amended (n : Node) : imageValue n = amendedImageValue n := by
  cases n with
  | str s => rfl
  | element text attrib =>
    simp only [imageValue, amendedImageValue]
    rw [pyOr_chain]
    cases hfind : ([attrGet attrib "src", attrGet attrib "data-src",
        attrGet attrib "data-image", attrGet attrib "href"].filterMap id).find?
        (fun v => v ≠ "") with
    | some v => simp [hfind]
    | none => simp [hfind]

/-- C3 counterexample: for a first matched element with `src=""` and
`data-src="a.jpg"`, the claim's rule ("first present non-absent attribute")
yields `""` while the code stores `"a.jpg"` — the code skips present but
empty attribute values. -/
theorem C3_counterexample :
    specImageValue (Node.element none [("src", ""), ("data-src", "a.jpg")]) = some "" ∧
    getKey? (processField (xpathConst [Node.element none [("src", ""), ("data-src", "a.jpg")]])
        false [] [] ⟨some "img", some "image", some "//img"⟩).1 "img"
      = some (Value.str "a.jpg") ∧
    Value.str "a.jpg" ≠ Value.str "" := by
  decide

/-- C3 (amended): for every Image-type FieldSpec with at least one match,
a plain-string first node stores its trimmed value (absent if empty); an
element node stores the first present **non-empty** attribute among `src`,
`data-src`, `data-image`, `href` in that order; when all four are absent or
empty the value is the `href` attribute if present (the empty string), else
the trimmed text, absent if that is empty; and no error is raised. -/
theorem C3_image_priority :
    (∀ n : Node, imageValue n = amendedImageValue n) ∧
    (∀ (xpathF : String → Except String (List Node)) (debug : Bool)
      (data : List (String × Value)) (fdbg : List (String × FieldDebug))
      (field : FieldSpec) (elem : Node) (rest : List Node),
      resolvedType field = "image" → resolvedSelector field ≠ "" →
      xpathF (resolvedSelector field) = Except.ok (elem :: rest) →
      getKey? (processField xpathF debug data fdbg field).1 (resolvedName field)
        = some (valueOfOpt (amendedImageValue elem)) ∧
      (processField xpathF debug data fdbg field).2.2 = none) := by
  constructor
  · exact imageValue_eq_amended
  · intro xpathF debug data fdbg field elem rest ht hs hx
    have hm : resolvedType field ≠ "multiple" := by rw [ht]; decide
    constructor
    · simp [processField, hs, hm, ht, hx, getKey?_setKey_self, imageValue_eq_amended]
    · simp [processField, hs, hm, ht, hx]

/-- C3 witness: the spec's own examples — `data-src="a.jpg"` with no `src`
resolves to `"a.jpg"`, and with both `src="b.jpg"` and `data-src="a.jpg"`
priority gives `"b.jpg"` — run through the Image pipeline. -/
theorem C3_witness :
    imageValue (Node.element none [("data-src", "a.jpg")])
      = amendedImageValue (Node.element none [("data-src", "a.jpg")]) ∧
    getKey? (processField (xpathConst [Node.element none [("src", "b.jpg"), ("data-src", "a.jpg")]])
        false [] [] ⟨some "img", some "image", some "//img"⟩).1 "img"
      = some (valueOfOpt (amendedImageValue
          (Node.element none [("src", "b.jpg"), ("data-src", "a.jpg")]))) :=
  by
    have h := C3_image_priority
    refine ⟨h.1 _, ?_⟩
    have h2 := (h.2 (xpathConst [Node.element none [("src", "b.jpg"), ("data-src", "a.jpg")]])
      false [] [] ⟨some "img", some "image", some "//img"⟩
      (Node.element none [("src", "b.jpg"), ("data-src", "a.jpg")]) []
      (by decide) (by decide) rfl).1
    simpa using h2

/-! ### Claim C8 -/

/-- C8: the engine is deterministic — two calls of `scrape_generic` on
identical fetch backend (hence identical document tree), field list, and
flags return identical results; the embedding is a pure function of its
arguments, mirroring that the code creates all its state (`session`,
`data`, `debug_info`, `field_debug`) fresh inside each call and reads no
globals. -/
theorem C8_deterministic :
    ∀ (fetch1 fetch2 : String → Except String FetchResult) (url1 url2 : String)
      (fields1 fields2 : List FieldSpec) (rj1 rj2 d1 d2 : Bool),
      fetch1 = fetch2 → url1 = url2 → fields1 = fields2 → rj1 = rj2 → d1 = d2 →
      scrape_generic fetch1 url1 fields1 rj1 d1 = scrape_generic fetch2 url2 fields2 rj2 d2 := by
  intro fetch1 fetch2 url1 url2 fields1 fields2 rj1 rj2 d1 d2 h1 h2 h3 h4 h5
  subst h1
  subst h2
  subst h3
  subst h4
  subst h5
  rfl

/-- C8 witness: two identical concrete runs coincide. -/
theorem C8_witness :
    scrape_generic (fetchWith (xpathConst [Node.str "x"])) "u"
        [⟨some "t", some "single", some "//h1"⟩] false true
      = scrape_generic (fetchWith (xpathConst [Node.str "x"])) "u"
        [⟨some "t", some "single", some "//h1"⟩] false true :=
  C8_deterministic _ _ _ _ _ _ _ _ _ _ rfl rfl rfl rfl rfl

/-! ### Claim C2 -/

/-- C2: the batch loop returns exactly one result per URL in input order
(equal length, index-wise image of `scrape_generic`), so a failure on one
URL cannot affect any other; and with debug on, a URL whose fetch,
JS-rendering, or XPath query evaluation raises yields a result whose debug
bundle carries the error message. -/
theorem C2_batch_isolation :
    ∀ (fetch : String → Except String FetchResult) (urls : List String)
      (fields : List FieldSpec) (render_js debug : Bool),
      (runBatch fetch urls fields render_js debug).length = urls.length ∧
      (∀ i : Nat, (runBatch fetch urls fields render_js debug)[i]?
          = (urls[i]?).map (fun u => scrape_generic fetch u fields render_js debug)) ∧
      (∀ url e, fetch url = Except.error e →
        debugErrorOf (scrape_generic fetch url fields render_js true) = some e) ∧
      (∀ url r e, fetch url = Except.ok r → render_js = true →
        r.render = Except.error e →
        debugErrorOf (scrape_generic fetch url fields render_js true) = some e) ∧
      (∀ url r e, fetch url = Except.ok r →
        (if render_js then r.render else Except.ok ()) = Except.ok () →
        (runFields r.xpath true fields [("url", Value.str url)] []).2.2 = some e →
        debugErrorOf (scrape_generic fetch url fields render_js true) = some e) := by
  intro fetch urls fields render_js debug
  refine ⟨by simp [runBatch], by simp [runBatch], ?_, ?_, ?_⟩
  · intro url e hf
    simp [scrape_generic, hf, debugErrorOf, getKey?_setKey_self]
  · intro url r e hf hrj hr
    subst hrj
    simp [scrape_generic, hf, hr, debugErrorOf, getKey?_setKey_self]
  · intro url r e hf hren hrun
    simp [scrape_generic, hf, hren, hrun, debugErrorOf, getKey?_setKey_self]

/-- C2 witness: four URLs — a success, a fetch failure, a render failure and
a query-evaluation failure — yield four results, and each failing URL's
debug bundle names its error. -/
theorem C2_witness :
    (runBatch mixedFetch ["U1", "U2", "U3", "U4"]
        [⟨some "t", some "single", some "//h1"⟩] true true).length = 4 ∧
    debugErrorOf (scrape_generic mixedFetch "U2"
        [⟨some "t", some "single", some "//h1"⟩] true true) = some "ConnectionError" ∧
    debugErrorOf (scrape_generic mixedFetch "U3"
        [⟨some "t", some "single", some "//h1"⟩] true true) = some "RenderTimeout" ∧
    debugErrorOf (scrape_generic mixedFetch "U4"
        [⟨some "t", some "single", some "//h1"⟩] true true) = some "XPathEvalError" :=
  by
    have h := C2_batch_isolation mixedFetch ["U1", "U2", "U3", "U4"]
      [⟨some "t", some "single", some "//h1"⟩] true true
    refine ⟨h.1.trans rfl, h.2.2.1 "U2" "ConnectionError" rfl, ?_, ?_⟩
    · exact h.2.2.2.1 "U3"
        ⟨some 200, some true, "U3", Except.error "RenderTimeout", fun _ => Except.ok []⟩
        "RenderTimeout" rfl rfl rfl
    · exact h.2.2.2.2 "U4"
        ⟨some 200, some true, "U4", Except.ok (), fun _ => Except.error "XPathEvalError"⟩
        "XPathEvalError" rfl rfl rfl

/-! ### Claim C9 -/

/-- Each field iteration either leaves `data` unchanged or writes exactly
one value under the field's resolved name. -/
theorem processField_data_shape
    (xpathF : String → Except String (List Node)) (debug : Bool)
    (data : List (String × Value)) (fdbg : List (String × FieldDebug))
    (f : FieldSpec) :
    (processField xpathF debug data fdbg f).1 = data ∨
    ∃ v, (processField xpathF debug data fdbg f).1 = setKey data (resolvedName f) v := by
  by_cases hsel : resolvedSelector f = ""
  · exact Or.inr ⟨Value.null, by simp [processField, hsel]⟩
  · by_cases hm : resolvedType f = "multiple"
    · cases hx : xpathF (resolvedSelector f) with
      | error e => exact Or.inl (by simp [processField, hsel, hm, hx])
      | ok elems =>
        exact Or.inr ⟨Value.list ((elems.map nodeText).filter (fun s => s ≠ "")),
          by simp [processField, hsel, hm, hx]⟩
    · by_cases hi : resolvedType f = "image"
      · cases hx : xpathF (resolvedSelector f) with
        | error e => exact Or.inl (by simp [processField, hsel, hm, hi, hx])
        | ok nodes =>
          cases nodes with
          | nil =>
            exact Or.inr ⟨Value.null, by simp [processField, hsel, hm, hi, hx, valueOfOpt]⟩
          | cons elem rest =>
            exact Or.inr ⟨valueOfOpt (imageValue elem),
              by simp [processField, hsel, hm, hi, hx]⟩
      · cases hx : xpathF (resolvedSelector f) with
        | error e => exact Or.inl (by simp [processField, hsel, hm, hi, hx])
        | ok nodes =>
          cases nodes with
          | nil => exact Or.inl (by simp [processField, hsel, hm, hi, hx])
          | cons elem rest =>
            exact Or.inr ⟨valueOfOpt (if nodeText elem = "" then none else some (nodeText elem)),
              by simp [processField, hsel, hm, hi, hx]⟩

/-- The field loop never touches a key that no field's resolved name
equals. -/
theorem getKey?_runFields_ne
    (xpathF : String → Except String (List Node)) (debug : Bool)
    (fields : List FieldSpec) (data : List (String × Value))
    (fdbg : List (String × FieldDebug)) (k : String)
    (h : ∀ f ∈ fields, resolvedName f ≠ k) :
    getKey? (runFields xpathF debug fields data fdbg).1 k = getKey? data k := by
  induction fields generalizing data fdbg with
  | nil => simp [runFields]
  | cons f rest ih =>
    have hstep : getKey? (processField xpathF debug data fdbg f).1 k = getKey? data k := by
      rcases processField_data_shape xpathF debug data fdbg f with hd | ⟨v, hd⟩
      · rw [hd]
      · rw [hd, getKey?_setKey_ne _ _ _ _ (h f (List.mem_cons_self f rest))]
    simp only [runFields]
    cases herr : (processField xpathF debug data fdbg f).2.2 with
    | some e => simpa using hstep
    | none =>
      simp only []
      rw [ih _ _ (fun g hg => h g (List.mem_cons_of_mem f hg))]
      exact hstep

/-- The field loop preserves presence of any key already in `data`. -/
theorem isSome_getKey?_runFields
    (xpathF : String → Except String (List Node)) (debug : Bool)
    (fields : List FieldSpec) (data : List (String × Value))
    (fdbg : List (String × FieldDebug)) (k : String)
    (h : (getKey? data k).isSome) :
    (getKey? (runFields xpathF debug fields data fdbg).1 k).isSome := by
  induction fields generalizing data fdbg with
  | nil => simpa [runFields] using h
  | cons f rest ih =>
    have hstep : (getKey? (processField xpathF debug data fdbg f).1 k).isSome := by
      rcases processField_data_shape xpathF debug data fdbg f with hd | ⟨v, hd⟩
      · rw [hd]; exact h
      · rw [hd]; exact isSome_getKey?_setKey _ _ _ _ h
    simp only [runFields]
    cases herr : (processField xpathF debug data fdbg f).2.2 with
    | some e => simpa using hstep
    | none => exact ih _ _ hstep

/-- Looking up any key other than `"_debug"` in the final result is the
same as looking it up in the data dictionary built by the protected
region. -/
theorem getKey?_scrape_generic_ne
    (fetch : String → Except String FetchResult) (url : String)
    (fields : List FieldSpec) (render_js debug : Bool) (k : String)
    (hk : k ≠ "_debug") :
    getKey? (scrape_generic fetch url fields render_js debug) k
      = getKey? (scrapeData fetch url fields render_js debug) k := by
  have hne : "_debug" ≠ k := fun hcontra => hk hcontra.symm
  cases hf : fetch url with
  | error e =>
    cases debug <;>
      simp [scrape_generic, scrapeData, hf, getKey?_setKey_ne _ _ _ _ hne]
  | ok r =>
    cases hren : (if render_js then r.render else Except.ok ()) with
    | error e =>
      cases debug <;>
        simp [scrape_generic, scrapeData, hf, hren, getKey?_setKey_ne _ _ _ _ hne]
    | ok u =>
      cases debug <;>
        simp [scrape_generic, scrapeData, hf, hren, getKey?_setKey_ne _ _ _ _ hne]

/-- C9 counterexample: a FieldSpec whose resolved name is `"url"` overwrites
the `url` entry, so the result's `"url"` value differs from the input URL. -/
theorem C9_counterexample :
    getKey? (scrape_generic (fetchWith (xpathConst [Node.element (some "Hello") []]))
        "https://example.com" [⟨some "url", some "single", some "//h1"⟩] false false) "url"
      = some (Value.str "Hello") ∧
    Value.str "Hello" ≠ Value.str "https://example.com" := by
  decide

/-- C9 (amended): every result of `scrape_generic` contains a `"url"` key —
also on fetch, render and query failures — and its value is the input URL
provided no FieldSpec's resolved name is `"url"` (a field named `"url"` may
overwrite it). -/
theorem C9_url_key :
    ∀ (fetch : String → Except String FetchResult) (url : String)
      (fields : List FieldSpec) (render_js debug : Bool),
      (∃ v, getKey? (scrape_generic fetch url fields render_js debug) "url" = some v) ∧
      ((∀ f ∈ fields, resolvedName f ≠ "url") →
        getKey? (scrape_generic fetch url fields render_js debug) "url"
          = some (Value.str url)) := by
  intro fetch url fields render_js debug
  have hrw := getKey?_scrape_generic_ne fetch url fields render_js debug "url" (by decide)
  constructor
  · rw [← Option.isSome_iff_exists, hrw]
    cases hf : fetch url with
    | error e => simp [scrapeData, hf, getKey?]
    | ok r =>
      cases hren : (if render_js then r.render else Except.ok ()) with
      | error e => simp [scrapeData, hf, hren, getKey?]
      | ok u =>
        simp only [scrapeData, hf, hren]
        exact isSome_getKey?_runFields _ _ _ _ _ _ (by simp [getKey?])
  · intro h
    rw [hrw]
    cases hf : fetch url with
    | error e => simp [scrapeData, hf, getKey?]
    | ok r =>
      cases hren : (if render_js then r.render else Except.ok ()) with
      | error e => simp [scrapeData, hf, hren, getKey?]
      | ok u =>
        simp only [scrapeData, hf, hren]
        rw [getKey?_runFields_ne _ _ _ _ _ _ h]
        simp [getKey?]

/-- C9 witness: a fetch failure still leaves the `"url"` entry equal to the
input URL when no field is named `"url"`. -/
theorem C9_witness :
    (∃ v, getKey? (scrape_generic (fun _ => Except.error "ConnectionError") "https://a.example"
        [⟨some "t", some "single", some "//h1"⟩] false true) "url" = some v) ∧
    getKey? (scrape_generic (fun _ => Except.error "ConnectionError") "https://a.example"
        [⟨some "t", some "single", some "//h1"⟩] false true) "url"
      = some (Value.str "https://a.example") :=
  by
    have h := C9_url_key (fun _ => Except.error "ConnectionError") "https://a.example"
      [⟨some "t", some "single", some "//h1"⟩] false true
    exact ⟨h.1, h.2 (by decide)⟩

/-! ### Claim C7 -/

/-- With a total (never-raising) query evaluator, one field iteration
performs exactly the dictionary write summarized by `fieldWrite`, and never
errors. -/
theorem processField_total_write (xq : String → List Node) (debug : Bool)
    (data : List (String × Value)) (fdbg : List (String × FieldDebug))
    (f : FieldSpec) :
    (processField (fun s => Except.ok (xq s)) debug data fdbg f).1
      = (match fieldWrite xq f with
         | none => data
         | some p => setKey data p.1 p.2) ∧
    (processField (fun s => Except.ok (xq s)) debug data fdbg f).2.2 = none := by
  by_cases hsel : resolvedSelector f = ""
  · simp [processField, fieldWrite, hsel]
  · by_cases hm : resolvedType f = "multiple"
    · simp [processField, fieldWrite, hsel, hm]
    · by_cases hi : resolvedType f = "image"
      · cases hxs : xq (resolvedSelector f) with
        | nil => simp [processField, fieldWrite, hsel, hm, hi, hxs, valueOfOpt]
        | cons e r => simp [processField, fieldWrite, hsel, hm, hi, hxs]
      · cases hxs : xq (resolvedSelector f) with
        | nil => simp [processField, fieldWrite, hsel, hm, hi, hxs]
        | cons e r =>
          by_cases hte : nodeText e = "" <;>
            simp [processField, fieldWrite, hsel, hm, hi, hxs, hte, valueOfOpt]

theorem foldl_lastWrite_acc (ws : List (String × Value)) (n : String)
    (acc : Option Value) :
    ws.foldl (fun a p => if p.1 = n then some p.2 else a) acc
      = match lastWriteOf ws n with
        | some v => some v
        | none => acc := by
  induction ws generalizing acc with
  | nil => simp [lastWriteOf]
  | cons w ws ih =>
    simp only [lastWriteOf, List.foldl] at ih ⊢
    rw [ih (if w.1 = n then some w.2 else acc), ih (if w.1 = n then some w.2 else none)]
    by_cases hw : w.1 = n <;>
      cases hlw : List.foldl (fun a p => if p.1 = n then some p.2 else a) none ws <;>
        simp [hw, hlw]

/-- Looking a key up after a sequence of dictionary writes yields the last
value written for it, or the original value when no write targeted it. -/
theorem getKey?_foldl_setKey (ws : List (String × Value))
    (data : List (String × Value)) (n : String) :
    getKey? (ws.foldl (fun m p => setKey m p.1 p.2) data) n
      = match lastWriteOf ws n with
        | some v => some v
        | none => getKey? data n := by
  induction ws generalizing data with
  | nil => simp [lastWriteOf]
  | cons w ws ih =>
    simp only [List.foldl]
    rw [ih]
    have hacc : lastWriteOf (w :: ws) n
        = match lastWriteOf ws n with
          | some v => some v
          | none => if w.1 = n then some w.2 else none := by
      simp only [lastWriteOf, List.foldl]
      rw [foldl_lastWrite_acc]
      rfl
    rw [hacc]
    by_cases hw : w.1 = n <;> cases hlw : lastWriteOf ws n
    · subst hw
      simp [hlw, getKey?_setKey_self]
    · simp [hlw]
    · simp [hw, hlw, getKey?_setKey_ne _ _ _ _ hw]
    · simp [hw, hlw]

/-- With a total query evaluator the whole field loop equals the fold of
its summarized writes, and never errors. -/
theorem runFields_total (xq : String → List Node) (debug : Bool)
    (fields : List FieldSpec) (data : List (String × Value))
    (fdbg : List (String × FieldDebug)) :
    (runFields (fun s => Except.ok (xq s)) debug fields data fdbg).1
      = (fields.filterMap (fieldWrite xq)).foldl (fun m p => setKey m p.1 p.2) data ∧
    (runFields (fun s => Except.ok (xq s)) debug fields data fdbg).2.2 = none := by
  induction fields generalizing data fdbg with
  | nil => simp [runFields]
  | cons f rest ih =>
    have hp := processField_total_write xq debug data fdbg f
    simp only [runFields, List.filterMap_cons]
    rw [hp.2]
    cases hw : fieldWrite xq f with
    | none =>
      rw [hw] at hp
      simp only [] at hp
      constructor
      · rw [(ih (processField (fun s => Except.ok (xq s)) debug data fdbg f).1
          (processField (fun s => Except.ok (xq s)) debug data fdbg f).2.1).1, hp.1]
      · exact (ih _ _).2
    | some p =>
      rw [hw] at hp
      simp only [] at hp
      constructor
      · rw [(ih (processField (fun s => Except.ok (xq s)) debug data fdbg f).1
          (processField (fun s => Except.ok (xq s)) debug data fdbg f).2.1).1, hp.1]
        simp [List.foldl]
      · exact (ih _ _).2

/-- C7: last write wins — for every sequence of FieldSpecs (and a total
query evaluator), looking a name up in the final mapping yields exactly the
value of the last write among the specs that resolve to that name (and the
pre-existing value when none does), so when two or more specs share a
resolved name the later one in input iteration order silently overwrites
the earlier ones. -/
theorem C7_last_write_wins :
    ∀ (xq : String → List Node) (debug : Bool) (fields : List FieldSpec)
      (data : List (String × Value)) (fdbg : List (String × FieldDebug)) (n : String),
      getKey? (runFields (fun s => Except.ok (xq s)) debug fields data fdbg).1 n
        = match lastWriteOf (fields.filterMap (fieldWrite xq)) n with
          | some v => some v
          | none => getKey? data n := by
  intro xq debug fields data fdbg n
  rw [(runFields_total xq debug fields data fdbg).1, getKey?_foldl_setKey]

end Scraper
